import Mathlib

/-!
Verification development for the GatorNet guided recommendation engine.

The knowledge-base content (`src/AI/categories/jsonFiles/housing.json`, the
clubs matcher taxonomy) and the React client (`SuggestionMenu.jsx`) are
embedded from the repository sources.  The server-side engine (Knowledge
Store loader, Path Interpreter, Matching Engine, Navigation Presenter) is
not part of the repository sources; those components are modelled from the
specification, as marked on each definition.
-/

set_option maxRecDepth 10000

/-- Decidable equality for `Except` results, used to evaluate the engine on
concrete inputs. -/
instance {ε α : Type} [DecidableEq ε] [DecidableEq α] : DecidableEq (Except ε α) := fun x y =>
  match x, y with
  | .ok a, .ok b =>
    if h : a = b then .isTrue (by rw [h])
    else .isFalse (by intro he; cases he; exact h rfl)
  | .ok _, .error _ => .isFalse (by intro he; cases he)
  | .error _, .ok _ => .isFalse (by intro he; cases he)
  | .error a, .error b =>
    if h : a = b then .isTrue (by rw [h])
    else .isFalse (by intro he; cases he; exact h rfl)

namespace GatorNet

/-! ## Data model: tree-shaped domains (housing.json shape) -/

/-- A recommendable entity, as in the inline `results` arrays of
housing.json: name, description, roomTypes, priceRange, features. -/
structure Entity where
  name : String
  description : String
  roomTypes : List String
  priceRange : String
  features : List String
deriving DecidableEq, Repr

/-- One option edge of a tree node: an `answer` label plus an optional
`nextQuestion` child reference and an optional inline `results` list,
exactly as the JSON objects under `options`. -/
structure Edge where
  answer : String
  nextQuestion : Option String
  results : Option (List Entity)
deriving DecidableEq, Repr

/-- An internal node: a `question` plus its `options` edges. -/
structure TreeNode where
  question : String
  options : List Edge
deriving DecidableEq, Repr

/-- A domain content file: the JSON object is a map from branch names to
nodes; child references (`nextQuestion`) are resolved against these keys. -/
abbrev DomainFile := List (String × TreeNode)

/-- A tree-shaped domain: its content file together with the declared root
branch name. -/
structure TreeDomain where
  file : DomainFile
  root : String
deriving DecidableEq, Repr

/-- Look up a branch by name in a domain file. -/
def findNode (file : DomainFile) (name : String) : Option TreeNode :=
  (file.find? (fun kv => kv.1 == name)).map (fun kv => kv.2)
/-- Node `housingTypeBranch` of src/AI/categories/jsonFiles/housing.json. -/
def housingTypeBranch : TreeNode where
  question := "What type of housing are you looking for?"
  options := [
    ⟨"Traditional Style", some "traditionalLocationBranch", none⟩,
    ⟨"Suite Style", some "suiteLocationBranch", none⟩,
    ⟨"Apartment Style", some "apartmentLocationBranch", none⟩
  ]

/-- Node `traditionalLocationBranch` of src/AI/categories/jsonFiles/housing.json. -/
def traditionalLocationBranch : TreeNode where
  question := "Which campus area would you prefer?"
  options := [
    ⟨"Historic District (Near Libraries/Hub)", some "historicDistrictPriceBranch", none⟩,
    ⟨"East Campus (Near Colleges of Education/Arts)", some "eastCampusPriceBranch", none⟩,
    ⟨"West Campus (Near Athletics/Engineering)", some "westCampusPriceBranch", none⟩
  ]

/-- Node `suiteLocationBranch` of src/AI/categories/jsonFiles/housing.json. -/
def suiteLocationBranch : TreeNode where
  question := "Which campus area would you prefer?"
  options := [
    ⟨"East Campus (Near Colleges of Education/Arts)", some "eastCampusSuitePriceBranch", none⟩,
    ⟨"West Campus (Near Athletics/Engineering)", some "westCampusSuitePriceBranch", none⟩,
    ⟨"Off-Campus (Innovation Square/Downtown)", none, some [
      ⟨"Infinity Hall", "Modern suite-style hall located in Innovation Square, just a short walk from campus with a Maker Space.",
        ["Single Suite", "Double Suite", "Super Suite"],
        "$5008-$5302 per semester",
        ["Maker Space", "Semi-Private Bathroom", "Close to Downtown"]⟩
    ]⟩
  ]

/-- Node `apartmentLocationBranch` of src/AI/categories/jsonFiles/housing.json. -/
def apartmentLocationBranch : TreeNode where
  question := "Which campus area would you prefer?"
  options := [
    ⟨"Central Campus", some "centralCampusApartmentBranch", none⟩,
    ⟨"West Campus (Near Athletics)", some "westCampusApartmentBranch", none⟩,
    ⟨"Off-Campus", some "offCampusApartmentBranch", none⟩
  ]

/-- Node `historicDistrictPriceBranch` of src/AI/categories/jsonFiles/housing.json. -/
def historicDistrictPriceBranch : TreeNode where
  question := "What\x27s your budget per semester?"
  options := [
    ⟨"Lower ($3000-$3600)", none, some [
      ⟨"Buckman Hall", "Historic hall with unique room layouts near Library West and Newell Hall.",
        ["Double Room", "Triple Room"],
        "$3136-$3556 per semester",
        ["Unique Room Layouts", "Historic Architecture"]⟩,
      ⟨"Thomas Hall", "Traditional hall in the historic district with various room configurations.",
        ["Double Room", "Triple Room", "Quad Room"],
        "$3004-$3556 per semester",
        ["Historic Architecture", "Variety of Room Options"]⟩
    ]⟩,
    ⟨"Medium ($3600-$4100)", none, some [
      ⟨"Fletcher Hall", "Historic hall with standard and large rooms near campus resources.",
        ["Single Room", "Double Room", "Large Single", "Large Double"],
        "$3556-$4082 per semester",
        ["Variety of Room Sizes", "Historic Architecture"]⟩,
      ⟨"Murphree Hall", "Unique picturesque rooms in the historic district near the Hub.",
        ["Double Room", "Large Double", "Triple Room", "Large Triple"],
        "$3296-$4082 per semester",
        ["Unique Room Layouts", "Near Campus Resources"]⟩,
      ⟨"Sledd Hall", "Historic hall with character and charm near several colleges.",
        ["Single Room", "Large Single", "Double Room", "Large Double", "Triple Room"],
        "$3136-$4082 per semester",
        ["Variety of Room Configurations", "Historic Architecture"]⟩
    ]⟩
  ]

/-- Node `eastCampusPriceBranch` of src/AI/categories/jsonFiles/housing.json. -/
def eastCampusPriceBranch : TreeNode where
  question := "What\x27s your budget per semester?"
  options := [
    ⟨"Lower ($3000-$3600)", none, some [
      ⟨"Broward Hall", "Traditional hall near Broward Dining and Plaza of the Americas.",
        ["Double Room", "Triple Room"],
        "$3136-$3556 per semester",
        ["Near Dining Hall", "Central Campus Location"]⟩,
      ⟨"Jennings Hall", "Traditional hall near sorority row and the College of Music.",
        ["Double Room", "Triple Room"],
        "$3136-$3556 per semester",
        ["Near Sorority Row", "Close to Arts Colleges"]⟩
    ]⟩,
    ⟨"Medium ($3600-$4100)", none, some [
      ⟨"Mallory Hall", "Traditional hall near various colleges with single room options.",
        ["Single Room", "Double Room"],
        "$3556-$3766 per semester",
        ["Study Lounge", "Close to Arts Colleges"]⟩,
      ⟨"Reid Hall", "Traditional hall near Century Tower and Marston Science Library.",
        ["Single Room", "Double Room", "Triple Room"],
        "$3136-$3766 per semester",
        ["Study Lounge", "Central Location"]⟩,
      ⟨"Yulee Hall", "Traditional hall with range of room options near arts colleges.",
        ["Single Room", "Double Room", "Triple Room"],
        "$3136-$3766 per semester",
        ["Study Lounge", "Close to The Market in Beaty Towers"]⟩
    ]⟩
  ]

/-- Node `westCampusPriceBranch` of src/AI/categories/jsonFiles/housing.json. -/
def westCampusPriceBranch : TreeNode where
  question := "What\x27s your budget per semester?"
  options := [
    ⟨"Lower ($3000-$3600)", none, some [
      ⟨"Graham Hall", "Traditional hall at corner of Museum Road and Gale Lemerand Drive.",
        ["Double Room"],
        "$3556 per semester",
        ["Swimming Pool", "The Market in Graham Hall"]⟩,
      ⟨"Simpson Hall", "Traditional hall near the Reitz Union and athletic venues.",
        ["Double Room"],
        "$3556 per semester",
        ["Swimming Pool", "Near Recreational Fields"]⟩,
      ⟨"Trusler Hall", "Traditional hall near fraternity row and athletic venues.",
        ["Double Room"],
        "$3556 per semester",
        ["Near Graham Pool", "Study Space"]⟩
    ]⟩,
    ⟨"Medium ($3600-$4100)", none, some [
      ⟨"North Hall", "Home to the Pre-Health Living Learning Community near athletic venues.",
        ["Single Room", "Double Room"],
        "$3556-$3766 per semester",
        ["Near Athletics", "Pre-Health Focus"]⟩,
      ⟨"Riker Hall", "Traditional hall across from athletics facilities.",
        ["Single Room", "Double Room", "Triple Room"],
        "$3136-$3766 per semester",
        ["Near Ben Hill Griffin Stadium", "Study Lounges"]⟩,
      ⟨"Tolbert Hall", "Home to the ROTC Living Learning Community near Van Fleet Hall.",
        ["Single Room", "Double Room", "Triple Room"],
        "$3136-$3766 per semester",
        ["Maritime Skills Simulator", "Near Reitz Union"]⟩
    ]⟩
  ]

/-- Node `eastCampusSuitePriceBranch` of src/AI/categories/jsonFiles/housing.json. -/
def eastCampusSuitePriceBranch : TreeNode where
  question := "What\x27s your budget per semester?"
  options := [
    ⟨"Lower ($3500-$4500)", none, some [
      ⟨"Rawlings Hall", "Has some suite-style options near Broward Dining Hall.",
        ["Suite Double"],
        "$3680 per semester",
        ["Near Broward Dining", "Central Campus Location"]⟩
    ]⟩,
    ⟨"Higher ($4500+)", none, some [
      ⟨"Cypress Hall", "Modern hall with universally designed suites and accessibility features.",
        ["Suite Single", "Suite Double", "Super Suite"],
        "$4800-$5081 per semester",
        ["Accessibility Features", "Modern Design"]⟩,
      ⟨"Honors Village", "Brand-new complex dedicated to honors students with premium amenities.",
        ["Suite Single", "Suite Double"],
        "$5281-$5589 per semester",
        ["Learning Commons", "Specialized Programming Spaces"]⟩
    ]⟩
  ]

/-- Node `westCampusSuitePriceBranch` of src/AI/categories/jsonFiles/housing.json. -/
def westCampusSuitePriceBranch : TreeNode where
  question := "What\x27s your budget per semester?"
  options := [
    ⟨"Medium ($4000-$4500)", none, some [
      ⟨"Springs Complex", "Suite-style complex near athletic venues and fraternity row.",
        ["Suite Single", "Suite Double"],
        "$4109-$4408 per semester",
        ["Outdoor Volleyball Space", "Near Athletics"]⟩
    ]⟩,
    ⟨"Higher ($4500+)", none, some [
      ⟨"Hume Hall", "Suite-style hall often housing honors students near the Reitz Union.",
        ["Suite Single", "Suite Double"],
        "$4800-$5081 per semester",
        ["Hume Classroom", "Study Rooms"]⟩
    ]⟩
  ]

/-- Node `centralCampusApartmentBranch` of src/AI/categories/jsonFiles/housing.json. -/
def centralCampusApartmentBranch : TreeNode where
  question := "Are you looking for single or shared bedroom options?"
  options := [
    ⟨"Shared bedroom", none, some [
      ⟨"Beaty Towers", "Centrally located apartment-style building with kitchenettes.",
        ["Apartment Double"],
        "$3821 per semester",
        ["Kitchenette", "Semi-Private Bathroom"]⟩
    ]⟩
  ]

/-- Node `westCampusApartmentBranch` of src/AI/categories/jsonFiles/housing.json. -/
def westCampusApartmentBranch : TreeNode where
  question := "Are you looking for single or shared bedroom options?"
  options := [
    ⟨"Single bedroom", none, some [
      ⟨"Keys Residential Complex", "Apartment-style complex near athletic venues with private rooms.",
        ["Apartment Single"],
        "$4262 per semester",
        ["Full-Size Beds", "Fully Equipped Kitchen"]⟩,
      ⟨"Lakeside Complex", "Apartment complex near Lake Alice with private and shared options.",
        ["Apartment Single"],
        "$4603 per semester",
        ["Full Kitchen", "Outdoor Volleyball Court"]⟩
    ]⟩,
    ⟨"Shared bedroom", none, some [
      ⟨"Lakeside Complex", "Apartment complex near recreational spaces with shared options.",
        ["Apartment Double"],
        "$3821 per semester",
        ["Full Kitchen", "Near UF Bat Houses"]⟩
    ]⟩
  ]

/-- Node `offCampusApartmentBranch` of src/AI/categories/jsonFiles/housing.json. -/
def offCampusApartmentBranch : TreeNode where
  question := "Are you a graduate student or family?"
  options := [
    ⟨"Yes", none, some [
      ⟨"Corry Village", "Family-friendly apartments with playgrounds and community center.",
        ["One Bedroom Apartment", "Two Bedroom Apartment"],
        "Varies - See Graduate Housing Rates",
        ["Playground", "Basketball Court", "Family-Oriented"]⟩,
      ⟨"Diamond Village", "Environmentally conscious community near UF Health Shands.",
        ["One Bedroom Apartment", "Two Bedroom Apartment"],
        "Varies - See Graduate Housing Rates",
        ["Solar Panels", "Community Garden", "Near Medical Campus"]⟩,
      ⟨"Tanglewood Village", "Off-campus retreat with various apartment and townhome options.",
        ["Efficiency", "One Bedroom", "Two Bedroom Apartment", "Two Bedroom Townhome"],
        "Varies - See Graduate Housing Rates",
        ["Free Parking", "Pool", "Community Garden"]⟩
    ]⟩,
    ⟨"No", none, some [
      ⟨"The Continuum", "Fully furnished apartments near downtown with premium amenities.",
        ["Studio", "One Bedroom", "Two Bedroom", "Four Bedroom"],
        "Varies - See Website",
        ["Business Center", "Fitness Center", "Swimming Pool"]⟩
    ]⟩
  ]

/-- The housing domain file: the branch map of housing.json, in file order,
with `housingTypeBranch` as the declared root. -/
def housingFile : DomainFile := [
  ("housingTypeBranch", housingTypeBranch),
  ("traditionalLocationBranch", traditionalLocationBranch),
  ("suiteLocationBranch", suiteLocationBranch),
  ("apartmentLocationBranch", apartmentLocationBranch),
  ("historicDistrictPriceBranch", historicDistrictPriceBranch),
  ("eastCampusPriceBranch", eastCampusPriceBranch),
  ("westCampusPriceBranch", westCampusPriceBranch),
  ("eastCampusSuitePriceBranch", eastCampusSuitePriceBranch),
  ("westCampusSuitePriceBranch", westCampusSuitePriceBranch),
  ("centralCampusApartmentBranch", centralCampusApartmentBranch),
  ("westCampusApartmentBranch", westCampusApartmentBranch),
  ("offCampusApartmentBranch", offCampusApartmentBranch)
]

/-- The housing tree domain with its declared root node. -/
def housingDomain : TreeDomain := ⟨housingFile, "housingTypeBranch"⟩
/-! ## Path Interpreter (tree-shaped domains)

Modelled from the spec: the server-side Path Interpreter of §4.2 is not in
the repository sources; `resolveFrom`, `breadcrumbsFrom` and the load-time
validation below follow the specification text. -/

/-- Request-scoped resolution failures (§7). -/
inductive ResolveError where
  | InvalidPath
  | PathExhausted
  | MalformedNode
deriving DecidableEq, Repr

/-- The position reached after replaying a path: a question node with its
option edges, or a terminal entity list. -/
inductive Resolution where
  | atNode (question : String) (options : List Edge)
  | terminal (entities : List Entity)
deriving DecidableEq, Repr

/-- Modelled from the spec: resolve a path by replaying it from `node`;
each token must match an edge answer label exactly, an unknown token is
`InvalidPath`, continuing past a terminal list is `PathExhausted`. -/
def resolveFrom (file : DomainFile) : TreeNode → List String → Except ResolveError Resolution
  | node, [] => .ok (.atNode node.question node.options)
  | node, tok :: rest =>
    match node.options.find? (fun e => e.answer == tok) with
    | none => .error .InvalidPath
    | some edge =>
      match edge.nextQuestion with
      | some childName =>
        match findNode file childName with
        | some child => resolveFrom file child rest
        | none => .error .InvalidPath
      | none =>
        match edge.results with
        | some es => if rest.isEmpty then .ok (.terminal es) else .error .PathExhausted
        | none => .error .MalformedNode

/-- Resolve a path from a domain's declared root. -/
def resolveDomain (d : TreeDomain) (path : List String) : Except ResolveError Resolution :=
  match findNode d.file d.root with
  | some rootNode => resolveFrom d.file rootNode path
  | none => .error .InvalidPath

/-- Modelled from the spec: breadcrumbs are reconstructed by replaying the
path a second time and collecting the answer labels chosen at each step. -/
def breadcrumbsFrom (file : DomainFile) : TreeNode → List String → Except ResolveError (List String)
  | _, [] => .ok []
  | node, tok :: rest =>
    match node.options.find? (fun e => e.answer == tok) with
    | none => .error .InvalidPath
    | some edge =>
      match edge.nextQuestion with
      | some childName =>
        match findNode file childName with
        | some child => (breadcrumbsFrom file child rest).map (fun bs => edge.answer :: bs)
        | none => .error .InvalidPath
      | none =>
        match edge.results with
        | some _ => if rest.isEmpty then .ok [edge.answer] else .error .PathExhausted
        | none => .error .MalformedNode

/-- Breadcrumbs for a path from a domain's declared root. -/
def breadcrumbsDomain (d : TreeDomain) (path : List String) : Except ResolveError (List String) :=
  match findNode d.file d.root with
  | some rootNode => breadcrumbsFrom d.file rootNode path
  | none => .error .InvalidPath

/-- The entity names of a successful terminal resolution (`none` when the
resolution failed or stopped at a question node). -/
def terminalNames : Except ResolveError Resolution → Option (List String)
  | .ok (.terminal es) => some (es.map (fun e => e.name))
  | _ => none

/-! ## Knowledge Store loader (tree-shaped domains)

Modelled from the spec: `load` (§4.1) validates the structural invariants of
§3 — every internal node has at least one edge, every edge has exactly one
of a child reference or a terminal entity list, entity names are unique
within the domain, child references resolve, the declared root exists and
the node graph is acyclic — and fails with `MalformedContent` otherwise. -/

/-- The §3 edge invariant: exactly one of a child reference or a terminal
entity list, never both, never neither. -/
def edgeExactlyOne (e : Edge) : Prop :=
  (e.nextQuestion.isSome = true ∧ e.results = none) ∨
  (e.nextQuestion = none ∧ e.results.isSome = true)

instance (e : Edge) : Decidable (edgeExactlyOne e) := by
  unfold edgeExactlyOne; infer_instance

/-- Boolean form of the edge invariant, used by the loader. -/
def edgeOkB (e : Edge) : Bool := decide (edgeExactlyOne e)

/-- Boolean node invariant: at least one edge, all edges well-formed. -/
def nodeOkB (n : TreeNode) : Bool := !n.options.isEmpty && n.options.all edgeOkB

/-- Structural check over a whole domain file. -/
def structOk (f : DomainFile) : Bool := f.all (fun kv => nodeOkB kv.2)

/-- All entity names occurring in a domain file, in file order. -/
def entityNames (f : DomainFile) : List String :=
  f.flatMap (fun kv => kv.2.options.flatMap (fun e => (e.results.getD []).map (fun x => x.name)))

/-- Boolean duplicate-freedom check. -/
def listNodup : List String → Bool
  | [] => true
  | x :: xs => !(xs.contains x) && listNodup xs

/-- Entity names are unique within the domain. -/
def nodupNames (f : DomainFile) : Bool := listNodup (entityNames f)

/-- Every child reference resolves to a branch of the file. -/
def refsOk (f : DomainFile) : Bool :=
  f.all (fun kv => kv.2.options.all (fun e =>
    match e.nextQuestion with
    | none => true
    | some c => (findNode f c).isSome))

/-- Fuel-bounded acyclicity check: in an acyclic file no replay path visits
more nodes than the file holds, so exhausting the fuel witnesses a cycle. -/
def noCycleFrom (f : DomainFile) : Nat → String → Bool
  | 0, _ => false
  | fuel + 1, name =>
    match findNode f name with
    | none => true
    | some n => n.options.all (fun e =>
        match e.nextQuestion with
        | none => true
        | some c => noCycleFrom f fuel c)

/-- Load-time failures (§7). -/
inductive LoadError where
  | MalformedContent
deriving DecidableEq, Repr

/-- Modelled from the spec: load-time validation of a tree-shaped domain. -/
def load (d : TreeDomain) : Except LoadError TreeDomain :=
  if structOk d.file && nodupNames d.file && refsOk d.file &&
     (findNode d.file d.root).isSome && noCycleFrom d.file (d.file.length + 1) d.root
  then .ok d
  else .error .MalformedContent

/-! ## Data model: taxonomy-shaped domains (clubs matcher JSON shape) -/

/-- A `category_groups` entry: a group name and its category names. -/
structure CategoryGroup where
  groupName : String
  categories : List String
deriving DecidableEq, Repr

/-- A `categories` entry: a category name and its subcategory tags. -/
structure Category where
  name : String
  subcategories : List String
deriving DecidableEq, Repr

/-- A matcher question's `options` field: either a fixed option list or the
content's dynamic-population placeholder string. -/
inductive QOptions where
  | fixed (options : List String)
  | dynamic (placeholder : String)
deriving DecidableEq, Repr

/-- A `matcher_questions` entry: id, question text, options, the optional
`select_count`, and the `multiple` flag (absent in the JSON means false). -/
structure MatcherQuestion where
  id : String
  question : String
  options : QOptions
  selectCount : Option Nat
  multiple : Bool
deriving DecidableEq, Repr

/-- A taxonomy-shaped domain content file. -/
structure Taxonomy where
  categoryGroups : List CategoryGroup
  categories : List Category
  matcherQuestions : List MatcherQuestion
deriving DecidableEq, Repr

/-- An entity of a taxonomy domain, reduced to its name and tag set as used
by the Matching Engine. -/
structure TaxEntity where
  name : String
  tags : List String
deriving DecidableEq, Repr

/-- The clubs taxonomy content (category_groups / categories / matcher_questions
of the clubs matcher JSON shipped with the repository). -/
def clubsTaxonomy : Taxonomy where
  categoryGroups := [
    ⟨"Academic & Intellectual", ["Academic", "Debate & Discussion", "STEM-Focused", "Health & Medical", "Coding"]⟩,
    ⟨"Arts & Culture", ["Artistic", "Cultural", "Music & Performance", "Theater & Acting", "Journalism & Writing"]⟩,
    ⟨"Physical Activities", ["Athletic", "Dance-Based", "Fitness-Focused", "Martial Arts", "Adventure", "Outdoor"]⟩,
    ⟨"Social Impact & Community", ["Activism", "Charitable", "Environmental", "Service-Oriented", "Political", "Religious"]⟩,
    ⟨"Leisure & Lifestyle", ["DIY & Crafting", "Esports & Gaming", "Mental Health & Wellness", "Greek Life", "Social & Networking", "Business-Oriented", "International"]⟩
  ]
  categories := [
    ⟨"Academic",
      ["Study Groups", "Research Projects", "Honor Societies", "Tutoring & Mentorship", "Writing & Publishing", "Academic Competitions", "Lecture & Seminar Series", "Professional Development", "Interdisciplinary Learning", "Critical Thinking Workshops"]⟩,
    ⟨"Activism",
      ["Advocacy Campaigns", "Community Outreach", "Human Rights Initiatives", "Policy Change Efforts", "Social Justice Movements", "Awareness Events", "Environmental Activism", "Fundraising for Causes", "Grassroots Organizing", "Volunteer Mobilization"]⟩,
    ⟨"Adventure",
      ["Hiking & Trekking", "Rock Climbing", "Camping Trips", "Extreme Sports", "Water Sports", "Travel & Exploration", "Outdoor Challenges", "Survival Skills", "Backpacking", "Road Trips"]⟩,
    ⟨"Artistic",
      ["Painting & Drawing", "Sculpture & Pottery", "Printmaking", "Digital Art", "Photography", "Graphic Design", "Mixed Media", "Street Art", "Illustration", "Animation"]⟩,
    ⟨"Athletic",
      ["Team Sports", "Individual Sports", "Competitive Training", "Strength & Conditioning", "Endurance Activities", "Recreational Sports", "Intramural Leagues", "Skill Development", "Strategy & Tactics", "Coaching & Mentorship"]⟩,
    ⟨"Business-Oriented",
      ["Entrepreneurship", "Finance & Investment", "Marketing & Branding", "Networking & Professional Development", "Business Case Competitions", "Consulting", "Leadership Training", "Startups & Innovation", "Corporate Social Responsibility", "Business Analytics"]⟩,
    ⟨"Charitable",
      ["Community Service", "Fundraising & Philanthropy", "Volunteering", "Social Impact Projects", "Nonprofit Support", "Humanitarian Aid", "Disaster Relief", "Charity Drives", "Mentorship & Support", "Advocacy Work"]⟩,
    ⟨"Coding",
      ["Software Development", "Web Development", "Mobile App Development", "Artificial Intelligence & Machine Learning", "Cybersecurity", "Data Science", "Open Source Contributions", "Hackathons", "Competitive Programming", "Game Development"]⟩,
    ⟨"Competitive",
      ["Debate & Public Speaking", "Case Competitions", "Hackathons", "Esports Tournaments", "STEM Competitions", "Business Pitch Contests", "Athletic Competitions", "Quiz Bowls", "Speech Competitions", "Strategy Games"]⟩,
    ⟨"Cultural",
      ["Ethnic & Heritage Clubs", "Language Exchange", "Cultural Festivals", "Traditional Music & Dance", "Cultural Awareness Programs", "International Cuisine", "History & Heritage", "Travel & Study Abroad", "Storytelling & Folklore", "Multicultural Networking"]⟩,
    ⟨"Dance-Based",
      ["Hip-Hop", "Ballet", "Salsa", "Contemporary", "Ballroom Dancing", "Jazz Dance", "Cultural & Folk Dance", "Competitive Dance", "Choreography & Performance", "Dance Fitness"]⟩,
    ⟨"Debate & Discussion",
      ["Model United Nations", "Speech & Debate", "Political Discussions", "Ethical Debates", "Book Clubs", "Philosophy Circles", "Academic Roundtables", "Public Speaking Training", "Current Events Forums", "Critical Thinking Workshops"]⟩,
    ⟨"DIY & Crafting",
      ["Knitting & Crocheting", "Woodworking", "Jewelry Making", "DIY Home Decor", "Scrapbooking", "Upcycling & Repurposing", "Handcrafted Gifts", "Leatherworking", "Sewing & Embroidery", "Pottery & Ceramics"]⟩,
    ⟨"Environmental",
      ["Sustainability Initiatives", "Climate Action", "Wildlife Conservation", "Green Technology", "Clean Energy Projects", "Environmental Education", "Recycling Programs", "Eco-Friendly Gardening", "Water Conservation", "Habitat Restoration"]⟩,
    ⟨"Esports & Gaming",
      ["Competitive Gaming", "Game Development", "Streaming & Content Creation", "Virtual Reality", "Tabletop RPGs", "Board Games", "Strategy Games", "Fighting Games", "Online Communities", "Multiplayer Tournaments"]⟩,
    ⟨"Fitness-Focused",
      ["Weightlifting", "Yoga & Meditation", "CrossFit", "Calisthenics", "Running & Marathon Training", "Functional Fitness", "Athletic Recovery", "Personal Training", "Sports Nutrition", "Group Fitness Classes"]⟩,
    ⟨"Greek Life",
      ["Fraternities", "Sororities", "Philanthropy Events", "Social Gatherings", "Leadership Development", "Networking & Alumni Relations", "Community Service", "Academic Support", "Greek Council", "Greek Sports"]⟩,
    ⟨"Health & Medical",
      ["Pre-Med & Pre-Health Societies", "Medical Volunteering", "Public Health Awareness", "Mental Health Advocacy", "Emergency Response Training", "Medical Research", "Health Education", "Patient Support Programs", "Disability Advocacy", "Medical Conferences"]⟩,
    ⟨"International",
      ["Language & Culture Clubs", "International Student Support", "Study Abroad Programs", "Cross-Cultural Networking", "Global Development Initiatives", "Multinational Business", "International Relations", "Travel & Exchange", "Global Cuisine", "Humanitarian Projects"]⟩,
    ⟨"Journalism & Writing",
      ["Student Newspapers", "Creative Writing", "Poetry & Spoken Word", "Journalism Clubs", "Publishing & Editorial", "Scriptwriting", "Blogging & Online Media", "Investigative Reporting", "Academic Writing", "Podcasting"]⟩,
    ⟨"Martial Arts",
      ["Brazilian Jiu-Jitsu", "Karate", "Taekwondo", "Boxing", "Muay Thai", "Judo", "Krav Maga", "Kickboxing", "Capoeira", "Self-Defense Training"]⟩,
    ⟨"Mental Health & Wellness",
      ["Mindfulness & Meditation", "Stress Management", "Peer Support Groups", "Therapy & Counseling Resources", "Mental Health Advocacy", "Wellness Coaching", "Healthy Lifestyle Programs", "Emotional Resilience Training", "Self-Care Workshops", "Community Healing"]⟩,
    ⟨"Music & Performance",
      ["Choirs & A Cappella", "Instrumental Ensembles", "DJ & Music Production", "Jazz & Classical Music", "Singer-Songwriter Circles", "Theatrical Performances", "Opera & Vocal Performance", "Percussion & Drumline", "Concert Planning", "Music Therapy"]⟩,
    ⟨"Outdoor",
      ["Hiking & Camping", "Kayaking & Canoeing", "Rock Climbing", "Wildlife Exploration", "Fishing & Hunting", "Outdoor Survival Skills", "Mountain Biking", "Trail Running", "Eco-Tourism", "National Park Adventures"]⟩,
    ⟨"Political",
      ["Political Party Organizations", "Policy Advocacy", "Government & Public Affairs", "Political Debates", "Election Campaigning", "Student Government", "Civic Engagement", "Human Rights Activism", "Lobbying & Grassroots Movements", "Voter Awareness Campaigns"]⟩,
    ⟨"Religious",
      ["Christian Organizations", "Jewish Organizations", "Muslim Student Groups", "Hindu Organizations", "Buddhist Meditation Groups", "Interfaith Dialogue", "Religious Study Groups", "Worship Services", "Spiritual Retreats", "Faith-Based Community Service"]⟩,
    ⟨"Service-Oriented",
      ["Volunteering", "Charity Fundraising", "Community Outreach", "Mentorship Programs", "Disaster Relief", "Humanitarian Aid", "Public Service Projects", "Social Impact Initiatives", "Nonprofit Organizations", "Philanthropy Events"]⟩,
    ⟨"STEM-Focused",
      ["Engineering Projects", "Robotics", "Data Science & AI", "Biotechnology & Life Sciences", "Aerospace & Aviation", "Environmental Science", "Nanotechnology", "Chemistry & Materials Science", "Physics & Astronomy", "Mathematics & Statistics"]⟩,
    ⟨"Theater & Acting",
      ["Acting & Performance", "Improv Comedy", "Playwriting", "Musical Theater", "Stage Directing", "Set & Costume Design", "Theatrical Production", "Theater Tech & Lighting", "Drama Workshops", "Broadway & Classical Plays"]⟩,
    ⟨"Social & Networking",
      ["Professional Networking", "Social Gatherings", "Career Development", "Leadership Conferences", "Alumni Connections", "Mentorship Programs", "Business Networking", "Student Government", "Team-Building Activities", "Community Engagement"]⟩
  ]
  matcherQuestions := [
    ⟨"category_group", "What general area of interest are you looking for?",
      .fixed ["Academic & Intellectual", "Arts & Culture", "Physical Activities", "Social Impact & Community", "Leisure & Lifestyle"], none, false⟩,
    ⟨"primary_interest", "Select a specific category within that area:",
      .dynamic "dynamically_populated_based_on_group_selection", none, false⟩,
    ⟨"subcategory_interests", "Select 4 specific interests within your chosen category:",
      .dynamic "dynamically_populated_based_on_primary_selection", some 4, false⟩,
    ⟨"commitment_level", "What level of commitment are you looking for?",
      .fixed ["Casual interest (1-2 hours/week)", "Regular involvement (3-5 hours/week)", "Dedicated participation (6-10 hours/week)", "Leadership role (10+ hours/week)"], none, false⟩,
    ⟨"schedule_preference", "When are you typically available for club activities?",
      .fixed ["Weekday mornings", "Weekday afternoons", "Weekday evenings", "Weekends"], none, true⟩,
    ⟨"experience_level", "What is your experience level with this interest area?",
      .fixed ["Beginner (Just getting started)", "Intermediate (Some experience)", "Advanced (Significant experience)", "Expert (Could teach others)"], none, false⟩
  ]
/-! ## Matching Engine (taxonomy-shaped domains)

Modelled from the spec: the Matching Engine of §4.3 was never implemented in
the repository sources (the content's dynamic-options placeholder marks the
open design); `score` below follows the specification's algorithm — hard
category filter, subcategory overlap with exclusion at zero, capped soft
bonuses, score-descending name-ascending ordering. -/

/-- Matching failures (§4.3 / §7), with a dedicated kind for a multi-select
answer that does not carry the declared number of selections. -/
inductive MatchError where
  | IncompletePath
  | PathTooLong
  | UnknownSelection
  | InvalidSelectionCount
deriving DecidableEq, Repr

/-- Split a composite multi-select token at commas (the spec's deterministic
comma-joined encoding), by structural recursion over the characters. -/
def splitCommaChars : List Char → List Char → List String
  | [], acc => [String.mk acc.reverse]
  | c :: cs, acc =>
    if c = ',' then String.mk acc.reverse :: splitCommaChars cs []
    else splitCommaChars cs (c :: acc)

/-- Decode a composite multi-select path token into its selections. -/
def splitToken (s : String) : List String := splitCommaChars s.data []

/-- One ranked match: the entity, its score, and the overlapping tags. -/
structure MatchResult where
  entity : TaxEntity
  score : Nat
  matchedTags : List String
deriving DecidableEq, Repr

/-- Look up a category group by its `group_name`. -/
def findGroup (t : Taxonomy) (g : String) : Option CategoryGroup :=
  t.categoryGroups.find? (fun x => x.groupName == g)

/-- Look up a category by name. -/
def findCategory (t : Taxonomy) (c : String) : Option Category :=
  t.categories.find? (fun x => x.name == c)

/-- The declared selection count of the subcategory question (the third
matcher question, `subcategory_interests`). -/
def subcatQuestionCount (t : Taxonomy) : Option Nat :=
  (t.matcherQuestions.get? 2).bind (fun q => q.selectCount)

/-- Modelled from the spec: validate the subcategory multi-select token —
exactly `k` selections (fewer or more is a validation error, never silently
truncated or padded) and every selection declared in the category. -/
def subcatStep (k : Nat) (declared : List String) (token : String) : Except MatchError (List String) :=
  let sel := splitToken token
  if sel.length ≠ k then .error .InvalidSelectionCount
  else if sel.all (fun s => declared.contains s) then .ok sel
  else .error .UnknownSelection

/-- Validate the trailing soft-dimension tokens against their questions and
return each dimension's selections (multi-select questions decode their
composite token). -/
def softSelections : List MatcherQuestion → List String → Except MatchError (List (List String))
  | _, [] => .ok []
  | [], _ :: _ => .error .PathTooLong
  | q :: qs, tok :: toks =>
    let sel := if q.multiple then splitToken tok else [tok]
    let declaredOk :=
      match q.options with
      | .fixed opts => sel.all (fun s => opts.contains s)
      | .dynamic _ => true
    if declaredOk then (softSelections qs toks).map (fun rest => sel :: rest)
    else .error .UnknownSelection

/-- Score one entity: `none` when the entity is hard-filtered out (category
not among its tags, or zero subcategory overlap), otherwise overlap plus one
bonus point per matching soft dimension. -/
def scoreEntity (category : String) (subcats : List String) (softs : List (List String))
    (e : TaxEntity) : Option MatchResult :=
  if e.tags.contains category then
    let matched := subcats.filter (fun s => e.tags.contains s)
    if matched.isEmpty then none
    else some ⟨e, matched.length + (softs.filter (fun sel => sel.any (fun s => e.tags.contains s))).length, matched⟩
  else none

/-- Ranking order: score descending, ties broken by ascending entity name. -/
def rankBefore (a b : MatchResult) : Bool :=
  if b.score < a.score then true
  else if a.score = b.score ∧ a.entity.name ≤ b.entity.name then true
  else false

/-- Insert into a ranked list, keeping earlier entries ahead of later equal
ones (stable, deterministic ordering). -/
def insertRanked (a : MatchResult) : List MatchResult → List MatchResult
  | [] => [a]
  | b :: rest => if rankBefore a b then a :: b :: rest else b :: insertRanked a rest

/-- Insertion sort by `rankBefore`. -/
def sortRanked : List MatchResult → List MatchResult
  | [] => []
  | a :: rest => insertRanked a (sortRanked rest)

/-- Modelled from the spec: `score` — hard filters first, then subcategory
overlap with zero-overlap exclusion, then capped soft bonuses, then the
deterministic ordering; the full ranked list is returned. -/
def score (t : Taxonomy) (entities : List TaxEntity) (path : List String) :
    Except MatchError (List MatchResult) :=
  match path with
  | g :: c :: s :: rest =>
    match findGroup t g with
    | none => .error .UnknownSelection
    | some grp =>
      if grp.categories.contains c then
        match findCategory t c with
        | none => .error .UnknownSelection
        | some cat =>
          match subcatStep ((subcatQuestionCount t).getD 0) cat.subcategories s with
          | .error e => .error e
          | .ok sel =>
            match softSelections (t.matcherQuestions.drop 3) rest with
            | .error e => .error e
            | .ok softs => .ok (sortRanked (entities.filterMap (scoreEntity c sel softs)))
      else .error .UnknownSelection
  | _ => .error .IncompletePath

/-! ## Navigation Presenter and request contract

Modelled from the spec: the `/menu` endpoint's single entry point (§4.4) and
the request contract (§6) — `selection`, if present, is appended to `path`
server-side before resolution. -/

/-- The request body of the `/menu` endpoint: `{ category, path, selection? }`. -/
structure MenuRequest where
  category : String
  path : List String
  selection : Option String
deriving DecidableEq, Repr

/-- The served path: `selection`, if present, is appended to `path` before
resolution. -/
def effectivePath (req : MenuRequest) : List String :=
  match req.selection with
  | some s => req.path ++ [s]
  | none => req.path

/-- The uniform response contract `{ question?, options?, content?,
breadcrumbs?, isTerminal }`; options are (label, value) pairs and the
terminal html/summary string is modelled as the joined entity names. -/
structure MenuResponse where
  question : Option String
  options : List (String × String)
  content : Option String
  breadcrumbs : List String
  isTerminal : Bool
deriving DecidableEq, Repr

/-- Failures surfaced by the presenter, keeping their §7 kind. -/
inductive NavError where
  | UnknownDomain
  | Resolve (e : ResolveError)
  | Match (e : MatchError)
deriving DecidableEq, Repr

/-- A domain is either tree-shaped or taxonomy-shaped (with its entities). -/
inductive DomainContent where
  | tree (d : TreeDomain)
  | taxonomy (t : Taxonomy) (entities : List TaxEntity)
deriving DecidableEq, Repr

/-- The Knowledge Store view used by the presenter: domains by name. -/
abbrev Store := List (String × DomainContent)

/-- Terminal content summary for a tree resolution. -/
def entitySummary (es : List Entity) : String :=
  String.intercalate ", " (es.map (fun e => e.name))

/-- Terminal content summary for a taxonomy match list. -/
def matchSummary (ms : List MatchResult) : String :=
  String.intercalate ", " (ms.map (fun m => m.entity.name))

/-- Option list for a matcher question, resolving the content's
dynamic-population placeholders from the answers so far. -/
def questionOptions (t : Taxonomy) (path : List String) (q : MatcherQuestion) : List String :=
  match q.options with
  | .fixed opts => opts
  | .dynamic _ =>
    match q.id, path with
    | "primary_interest", g :: _ => ((findGroup t g).map (fun x => x.categories)).getD []
    | "subcategory_interests", _ :: c :: _ => ((findCategory t c).map (fun x => x.subcategories)).getD []
    | _, _ => []

/-- Modelled from the spec: presenter dispatch for a taxonomy domain — ask
the next unanswered matcher question while the three required questions are
open, and score once they are answered. -/
def advanceTaxonomy (t : Taxonomy) (ents : List TaxEntity) (path : List String) :
    Except NavError MenuResponse :=
  if path.length < 3 then
    match t.matcherQuestions.get? path.length with
    | some q => .ok
        { question := some q.question
        , options := (questionOptions t path q).map (fun o => (o, o))
        , content := none, breadcrumbs := path, isTerminal := false }
    | none => .error (.Match .PathTooLong)
  else
    match score t ents path with
    | .ok ms => .ok
        { question := none, options := [], content := some (matchSummary ms)
        , breadcrumbs := path, isTerminal := true }
    | .error e => .error (.Match e)

/-- Modelled from the spec: presenter dispatch for a tree domain, pairing
the resolution with its replayed breadcrumbs. -/
def advanceTree (d : TreeDomain) (path : List String) : Except NavError MenuResponse :=
  match resolveDomain d path, breadcrumbsDomain d path with
  | .ok (.atNode q opts), .ok bs => .ok
      { question := some q
      , options := opts.map (fun e => (e.answer, e.answer))
      , content := none, breadcrumbs := bs, isTerminal := false }
  | .ok (.terminal es), .ok bs => .ok
      { question := none, options := [], content := some (entitySummary es)
      , breadcrumbs := bs, isTerminal := true }
  | .error e, _ => .error (.Resolve e)
  | .ok _, .error e => .error (.Resolve e)

/-- Modelled from the spec: the single entry point `advance(domainName,
path)`, dispatching on the domain's shape. -/
def advance (store : Store) (domainName : String) (path : List String) :
    Except NavError MenuResponse :=
  match store.find? (fun kv => kv.1 == domainName) with
  | none => .error .UnknownDomain
  | some (_, DomainContent.tree d) => advanceTree d path
  | some (_, DomainContent.taxonomy t ents) => advanceTaxonomy t ents path

/-- Modelled from the spec: serve one `/menu` request — append `selection`
to `path` if present, then resolve the resulting path from scratch. -/
def serveMenu (store : Store) (req : MenuRequest) : Except NavError MenuResponse :=
  advance store req.category (effectivePath req)

/-- A store holding the housing tree domain, for concrete runs. -/
def housingStore : Store := [("housing", .tree housingDomain)]

/-! ## Client model (src/chatbot/frontend/src/components/SuggestionMenu.jsx)

The request construction and the path/history bookkeeping of the
SuggestionMenu component, translated from the source. -/

/-- JavaScript's `String.prototype.trim`, by structural recursion over the
characters: leading and trailing whitespace removed. -/
def isWhitespaceChar (c : Char) : Bool :=
  c == ' ' || c == '\t' || c == '\n' || c == '\r'

/-- Trim a character list on both ends. -/
def trimChars (l : List Char) : List Char :=
  ((l.dropWhile isWhitespaceChar).reverse.dropWhile isWhitespaceChar).reverse

/-- The client's `customInput.trim()`. -/
def jsTrim (s : String) : String := String.mk (trimChars s.data)

/-- The observable effect of one `fetchMenuData(category, selection,
goingBack, currentPath)` call: the request body it posts to `/menu` (the
`selection` key is included only when non-null) and the `direction`
animation state it sets (`goingBack ? -1 : 1`). -/
structure FetchCall where
  request : MenuRequest
  direction : Int
deriving DecidableEq, Repr

/-- `fetchMenuData` from SuggestionMenu.jsx, as its observable effect. -/
def fetchMenuData (category : String) (selection : Option String) (goingBack : Bool)
    (currentPath : List String) : FetchCall :=
  { request := { category := category, path := currentPath, selection := selection }
  , direction := if goingBack then -1 else 1 }

/-- The request posted by `handleSelect`: it extends the path with the
selection (`newPath = [...path, selection]`) and passes the selection too
(`fetchMenuData(category, selection, false, newPath)`). -/
def handleSelectRequest (category : String) (path : List String) (selection : String) :
    MenuRequest :=
  (fetchMenuData category (some selection) false (path ++ [selection])).request

/-- The request posted by `handleCustomInputSubmit`: the trimmed input is
appended unconditionally (`newPath = [...path, customInput.trim()]`) and
also passed as the selection. -/
def customSubmitRequest (category : String) (path : List String) (raw : String) :
    MenuRequest :=
  (fetchMenuData category (some (jsTrim raw)) false (path ++ [jsTrim raw])).request

/-- The path/history portion of the component state: the `path` state
variable and the `historyRef` stack (each pushed entry's `category` and
`path`; the stored `menuData` is never read back by `handleBack`, which
re-fetches, so it is not tracked). The stack top is the list end, matching
the array push/pop of the source. -/
structure ClientState where
  category : String
  path : List String
  history : List (String × List String)
deriving DecidableEq, Repr

/-- The component state right after mount: empty path, empty history. -/
def initClient (category : String) : ClientState := ⟨category, [], []⟩

/-- The user interactions that change path/history: option selection,
custom-input submission, the back button, a breadcrumb click (the source
only lets crumbs before the last one be clicked), and the reset-to-root
category crumb. -/
inductive ClientEvent where
  | select (tok : String)
  | customSubmit (raw : String)
  | back
  | crumbClick (i : Nat)
  | resetCrumb
deriving DecidableEq, Repr

/-- `historyRef.current = [...historyRef.current, {category, path, menuData}]`. -/
def pushHistory (st : ClientState) : ClientState :=
  { st with history := st.history ++ [(st.category, st.path)] }

/-- One state transition of SuggestionMenu, translated handler by handler.
For a successful resolution the server's breadcrumbs equal the path, so the
source's `index < menuData.breadcrumbs.length - 1` crumb guard is
`i + 1 < path.length`. -/
def step (st : ClientState) : ClientEvent → ClientState
  | .select tok =>
    { pushHistory st with path := st.path ++ [tok] }
  | .customSubmit raw =>
    { pushHistory st with path := st.path ++ [jsTrim raw] }
  | .back =>
    if st.path.isEmpty then st
    else
      match st.history.getLast? with
      | some prev => { st with path := prev.2, history := st.history.dropLast }
      | none => { st with path := st.path.dropLast }
  | .crumbClick i =>
    if i + 1 < st.path.length then { st with path := st.path.take (i + 1) } else st
  | .resetCrumb =>
    { st with path := [] }

/-- The states reachable through option selections, custom-input
submissions and back actions alone (no breadcrumb or reset-crumb clicks). -/
inductive ReachableSCB : ClientState → Prop
  | init (category : String) : ReachableSCB (initClient category)
  | select (st : ClientState) (tok : String) :
      ReachableSCB st → ReachableSCB (step st (.select tok))
  | custom (st : ClientState) (raw : String) :
      ReachableSCB st → ReachableSCB (step st (.customSubmit raw))
  | back (st : ClientState) :
      ReachableSCB st → ReachableSCB (step st .back)

/-- The history-stack invariant of the claim: one entry per path token, the
i-th entry holding the length-i prefix of the current path. -/
def histInvariant (st : ClientState) : Prop :=
  st.history.length = st.path.length ∧
  ∀ i (h : i < st.history.length), (st.history.get ⟨i, h⟩).2 = st.path.take i

/-- A state produced by two selections followed by a breadcrumb click on
the first crumb: the path shrinks but the history stack is not popped. -/
def crumbClickState : ClientState :=
  step (step (step (initClient "housing")
      (.select "Traditional Style"))
      (.select "Historic District (Near Libraries/Hub)"))
      (.crumbClick 0)

/-! ## Witness fixtures -/

/-- The housing scenario path of the spec. -/
def hdPath : List String :=
  ["Traditional Style", "Historic District (Near Libraries/Hub)", "Lower ($3000-$3600)"]

/-- A one-node tree domain cut from the housing content (the historic
district price branch with its inline terminal lists), which passes every
load-time check. -/
def histDomain : TreeDomain :=
  ⟨[("historicDistrictPriceBranch", historicDistrictPriceBranch)], "historicDistrictPriceBranch"⟩

/-- A malformed domain: its single edge carries both a child reference and
a terminal list. -/
def badDomain : TreeDomain :=
  ⟨[("root", ⟨"Q?", [⟨"A", some "root", some []⟩]⟩)], "root"⟩

/-- The Coding category's declared subcategories, for concrete matcher runs. -/
def codingSubcategories : List String :=
  ((findCategory clubsTaxonomy "Coding").map (fun c => c.subcategories)).getD []

/-- The spec's club-scenario subcategory token. -/
def codingToken4 : String :=
  "Hackathons,Open Source Contributions,Game Development,Competitive Programming"

/-- A sample club entity matching three of the four scenario interests. -/
def sampleClubA : TaxEntity :=
  ⟨"Gator Hackers", ["Coding", "Hackathons", "Open Source Contributions", "Game Development"]⟩

/-- A sample club entity outside the Coding category. -/
def sampleClubB : TaxEntity :=
  ⟨"Strategy Gamers", ["Esports & Gaming", "Strategy Games"]⟩

/-- A state produced by two selections alone, used in concrete runs. -/
def twoSelectState : ClientState :=
  step (step (initClient "housing")
      (.select "Traditional Style"))
      (.select "Historic District (Near Libraries/Hub)")

/-! ## Helper lemmas -/

/-- A successful resolution forces the replayed breadcrumbs to be exactly
the path tokens: each consumed edge's answer label is the token that
selected it. -/
theorem breadcrumbsFrom_of_resolveFrom (file : DomainFile) (path : List String) :
    ∀ (node : TreeNode) (r : Resolution), resolveFrom file node path = .ok r →
      breadcrumbsFrom file node path = .ok path := by
  induction path with
  | nil => intro node r _; rfl
  | cons tok rest ih =>
    intro node r h
    simp only [resolveFrom] at h
    simp only [breadcrumbsFrom]
    cases hf : node.options.find? (fun e => e.answer == tok) with
    | none => simp only [hf] at h; exact Except.noConfusion h
    | some edge =>
      simp only [hf] at h ⊢
      have hans : edge.answer = tok := by
        have hp := List.find?_some hf
        simpa [beq_iff_eq] using hp
      cases hnq : edge.nextQuestion with
      | some childName =>
        simp only [hnq] at h ⊢
        cases hc : findNode file childName with
        | none => simp only [hc] at h; exact Except.noConfusion h
        | some child =>
          simp only [hc] at h ⊢
          rw [ih child r h]
          simp [Except.map, hans]
      | none =>
        simp only [hnq] at h ⊢
        cases hres : edge.results with
        | none => simp only [hres] at h; exact Except.noConfusion h
        | some es =>
          simp only [hres] at h ⊢
          cases hre : rest.isEmpty with
          | false => simp only [hre] at h; exact Except.noConfusion h
          | true =>
            have : rest = [] := List.isEmpty_iff.mp hre
            subst this
            simp [hans]

/-- Every prefix of a resolvable path is itself resolvable. -/
theorem resolveFrom_take_isOk (file : DomainFile) (path : List String) :
    ∀ (node : TreeNode) (r : Resolution) (n : Nat), resolveFrom file node path = .ok r →
      ∃ r2, resolveFrom file node (path.take n) = .ok r2 := by
  induction path with
  | nil =>
    intro node r n h
    exact ⟨r, by simpa using h⟩
  | cons tok rest ih =>
    intro node r n h
    cases n with
    | zero => exact ⟨.atNode node.question node.options, rfl⟩
    | succ m =>
      rw [List.take_succ_cons]
      simp only [resolveFrom] at h ⊢
      cases hf : node.options.find? (fun e => e.answer == tok) with
      | none => simp only [hf] at h; exact Except.noConfusion h
      | some edge =>
        simp only [hf] at h ⊢
        cases hnq : edge.nextQuestion with
        | some childName =>
          simp only [hnq] at h ⊢
          cases hc : findNode file childName with
          | none => simp only [hc] at h; exact Except.noConfusion h
          | some child =>
            simp only [hc] at h ⊢
            exact ih child r m h
        | none =>
          simp only [hnq] at h ⊢
          cases hres : edge.results with
          | none => simp only [hres] at h; exact Except.noConfusion h
          | some es =>
            simp only [hres] at h ⊢
            cases hre : rest.isEmpty with
            | false => simp only [hre] at h; exact Except.noConfusion h
            | true =>
              have : rest = [] := List.isEmpty_iff.mp hre
              subst this
              simp

/-- Membership through ranked insertion. -/
theorem mem_insertRanked {a x : MatchResult} :
    ∀ {l : List MatchResult}, a ∈ insertRanked x l ↔ a = x ∨ a ∈ l := by
  intro l
  induction l with
  | nil => simp [insertRanked]
  | cons b rest ih =>
    simp only [insertRanked]
    split
    · simp [List.mem_cons]
    · simp only [List.mem_cons, ih]
      tauto

/-- Sorting the ranked list never adds or removes matches. -/
theorem mem_sortRanked {a : MatchResult} :
    ∀ {l : List MatchResult}, a ∈ sortRanked l ↔ a ∈ l := by
  intro l
  induction l with
  | nil => simp [sortRanked]
  | cons b rest ih => simp [sortRanked, mem_insertRanked, ih, List.mem_cons]

/-- A successful subcategory step returns exactly the decoded selections,
and exactly the declared number of them. -/
theorem subcatStep_ok {k : Nat} {declared : List String} {token : String} {sel : List String}
    (h : subcatStep k declared token = .ok sel) :
    sel = splitToken token ∧ sel.length = k := by
  simp only [subcatStep] at h
  split at h
  · exact Except.noConfusion h
  · split at h
    · cases h
      refine ⟨rfl, ?_⟩
      omega
    · exact Except.noConfusion h

/-- A selection count different from the declared one is a validation
error. -/
theorem subcatStep_count_error {k : Nat} (declared : List String) (token : String)
    (h : (splitToken token).length ≠ k) :
    subcatStep k declared token = .error .InvalidSelectionCount := by
  simp [subcatStep, h]

/-! ## Claim theorems -/

/-- C1: in the housing tree, resolving the path ["Traditional Style",
"Historic District (Near Libraries/Hub)", "Lower ($3000-$3600)"] from the
declared root yields a terminal entity list whose members are exactly the
entities named "Buckman Hall" and "Thomas Hall" — a terminal resolution
carries no current question. -/
theorem c1_housing_scenario :
    terminalNames (resolveDomain housingDomain hdPath) =
      some ["Buckman Hall", "Thomas Hall"] := by decide

/-- C2 (amended): the served path appends `selection` to `path`, so a
pre-extended path with no selection resolves identically to the un-extended
path with the selection; but the client's handleSelect request sends the
already-extended path together with the selection token, so the server
resolves the doubly-extended path, not the extended path alone. -/
theorem c2_selection_append (store : Store) (category s : String) (p : List String) :
    serveMenu store ⟨category, p ++ [s], none⟩ = serveMenu store ⟨category, p, some s⟩ ∧
    serveMenu store (handleSelectRequest category p s) =
      serveMenu store ⟨category, p ++ [s, s], none⟩ := by
  refine ⟨rfl, ?_⟩
  simp [serveMenu, handleSelectRequest, fetchMenuData, effectivePath]

/-- C2 counterexample: from path [] selecting "Traditional Style", the
handleSelect request (path ["Traditional Style"], selection "Traditional
Style") does not resolve to the same node as the extended path sent alone —
the doubly-extended path is an InvalidPath error while the extended path
alone is the next question. -/
theorem c2_counterexample :
    serveMenu housingStore (handleSelectRequest "housing" [] "Traditional Style") ≠
      serveMenu housingStore ⟨"housing", ["Traditional Style"], none⟩ := by decide

/-- C3: the housing content itself violates the domain-wide entity-name
uniqueness invariant — "Lakeside Complex" occurs twice (both price edges of
westCampusApartmentBranch) — so the spec-modelled loader, whose structural
checks the file otherwise passes, rejects the shipped housing domain with
MalformedContent. -/
theorem c3_housing_duplicate_name :
    (entityNames housingFile).count "Lakeside Complex" = 2 ∧
    structOk housingFile = true ∧
    nodupNames housingFile = false ∧
    load housingDomain = .error .MalformedContent := by
  exact ⟨by decide, by decide, by decide, by decide⟩

/-- C7: for a resolvable path, the replayed breadcrumbs are exactly the
answer labels chosen at each step (the path tokens themselves, hence of
length len(p)), and the breadcrumbs of any prefix p.take n are the first n
breadcrumbs of the full path. -/
theorem c7_breadcrumb_truncation (d : TreeDomain) (p : List String) (n : Nat)
    (h : (resolveDomain d p).isOk = true) (hn : n ≤ p.length) :
    breadcrumbsDomain d p = .ok p ∧
    breadcrumbsDomain d (p.take n) = .ok (p.take n) := by
  cases hres : resolveDomain d p with
  | error e => rw [hres] at h; exact Bool.noConfusion h
  | ok r =>
    simp only [resolveDomain] at hres
    cases hr : findNode d.file d.root with
    | none => rw [hr] at hres; exact Except.noConfusion hres
    | some rootNode =>
      rw [hr] at hres
      obtain ⟨r2, h2⟩ := resolveFrom_take_isOk d.file p rootNode r n hres
      constructor
      · simp only [breadcrumbsDomain, hr]
        exact breadcrumbsFrom_of_resolveFrom d.file p rootNode r hres
      · simp only [breadcrumbsDomain, hr]
        exact breadcrumbsFrom_of_resolveFrom d.file (p.take n) rootNode r2 h2

/-- C7 witness: the housing scenario path and its length-2 prefix. -/
theorem c7_witness :
    breadcrumbsDomain housingDomain hdPath = .ok hdPath ∧
    breadcrumbsDomain housingDomain (hdPath.take 2) = .ok (hdPath.take 2) :=
  c7_breadcrumb_truncation housingDomain hdPath 2 (by decide) (by decide)

/-- C4: a domain that loads successfully satisfies the structural
invariant — every internal node has at least one option edge and every edge
carries exactly one of a child reference or a terminal entity list — and a
content file failing the structural check is rejected with
MalformedContent rather than served. -/
theorem c4_load_enforces_edge_invariant :
    (∀ d t : TreeDomain, load d = .ok t →
      ∀ kv ∈ t.file, kv.2.options ≠ [] ∧ ∀ e ∈ kv.2.options, edgeExactlyOne e) ∧
    (∀ d : TreeDomain, structOk d.file = false → load d = .error .MalformedContent) := by
  constructor
  · intro d t h kv hkv
    simp only [load] at h
    split at h
    case isTrue hcond =>
      cases h
      simp only [Bool.and_eq_true] at hcond
      have hs : structOk d.file = true := hcond.1.1.1.1
      rw [structOk, List.all_eq_true] at hs
      have hn := hs kv hkv
      rw [nodeOkB, Bool.and_eq_true] at hn
      constructor
      · intro h0
        rw [h0] at hn
        simp at hn
      · intro e he
        have he2 := (List.all_eq_true.mp hn.2) e he
        exact of_decide_eq_true he2
    case isFalse => exact Except.noConfusion h
  · intro d h
    simp [load, h]

/-- C4 witness: the historic-district fragment of the housing content loads
and its node satisfies the invariant; a domain whose edge carries both a
child and a terminal list is rejected. -/
theorem c4_witness :
    load histDomain = .ok histDomain ∧
    ("historicDistrictPriceBranch", historicDistrictPriceBranch).2.options ≠ [] ∧
    load badDomain = .error .MalformedContent := by
  have hok : load histDomain = .ok histDomain := by decide
  refine ⟨hok, ?_, c4_load_enforces_edge_invariant.2 badDomain (by decide)⟩
  exact (c4_load_enforces_edge_invariant.1 histDomain histDomain hok
    ("historicDistrictPriceBranch", historicDistrictPriceBranch) (by decide)).1

/-- C5: every match returned by `score` for a completed answer path has the
selected category among its entity's tags and shares at least one of the
selected subcategories with them — entities failing either hard condition
are excluded entirely. -/
theorem c5_score_hard_filters (t : Taxonomy) (ents : List TaxEntity)
    (g c s : String) (rest : List String) (res : List MatchResult) (m : MatchResult)
    (h : score t ents (g :: c :: s :: rest) = .ok res) (hm : m ∈ res) :
    c ∈ m.entity.tags ∧
    (splitToken s).any (fun tag => m.entity.tags.contains tag) = true := by
  simp only [score] at h
  cases hg : findGroup t g with
  | none => simp only [hg] at h; exact Except.noConfusion h
  | some grp =>
    simp only [hg] at h
    cases hgc : grp.categories.contains c with
    | false => simp only [hgc] at h; exact Except.noConfusion h
    | true =>
      simp only [hgc, if_true] at h
      cases hcat : findCategory t c with
      | none => simp only [hcat] at h; exact Except.noConfusion h
      | some cat =>
        simp only [hcat] at h
        cases hsub : subcatStep ((subcatQuestionCount t).getD 0) cat.subcategories s with
        | error e => simp only [hsub] at h; exact Except.noConfusion h
        | ok sel =>
          simp only [hsub] at h
          cases hsoft : softSelections (t.matcherQuestions.drop 3) rest with
          | error e => simp only [hsoft] at h; exact Except.noConfusion h
          | ok softs =>
            simp only [hsoft] at h
            cases h
            rw [mem_sortRanked] at hm
            rw [List.mem_filterMap] at hm
            obtain ⟨e, he, hsome⟩ := hm
            simp only [scoreEntity] at hsome
            cases het : e.tags.contains c with
            | false => rw [het] at hsome; exact Option.noConfusion hsome
            | true =>
              rw [het] at hsome
              simp only [if_true] at hsome
              cases hmt : (sel.filter (fun x => e.tags.contains x)).isEmpty with
              | true => rw [hmt] at hsome; simp at hsome
              | false =>
                rw [hmt] at hsome
                simp only [Bool.false_eq_true, if_false] at hsome
                cases hsome
                have hsel : sel = splitToken s := (subcatStep_ok hsub).1
                constructor
                · simpa using het
                · obtain ⟨x, hx⟩ := List.exists_mem_of_ne_nil _ (List.isEmpty_eq_false.mp hmt)
                  rw [List.mem_filter] at hx
                  rw [List.any_eq_true]
                  exact ⟨x, by rw [← hsel]; exact hx.1, hx.2⟩

/-- C5 witness: the spec's club scenario — group "Academic & Intellectual",
category "Coding", the four scenario interests — on a matching and a
non-matching sample club. -/
theorem c5_witness :
    "Coding" ∈
      (⟨sampleClubA, 3, ["Hackathons", "Open Source Contributions", "Game Development"]⟩ :
        MatchResult).entity.tags ∧
    (splitToken codingToken4).any (fun tag =>
      (⟨sampleClubA, 3, ["Hackathons", "Open Source Contributions", "Game Development"]⟩ :
        MatchResult).entity.tags.contains tag) = true :=
  c5_score_hard_filters clubsTaxonomy [sampleClubA, sampleClubB]
    "Academic & Intellectual" "Coding" codingToken4 []
    [⟨sampleClubA, 3, ["Hackathons", "Open Source Contributions", "Game Development"]⟩]
    ⟨sampleClubA, 3, ["Hackathons", "Open Source Contributions", "Game Development"]⟩
    (by decide) (by decide)

/-- C6: the clubs subcategory question declares select_count 4, and the
subcategory step accepts exactly that many selections — a token decoding to
fewer or more is a validation error, and an accepted selection list is
exactly the decoded token, never truncated or padded. -/
theorem c6_exact_selection_count :
    subcatQuestionCount clubsTaxonomy = some 4 ∧
    ∀ (declared : List String) (token : String),
      ((splitToken token).length ≠ 4 →
        subcatStep 4 declared token = .error .InvalidSelectionCount) ∧
      ∀ sel, subcatStep 4 declared token = .ok sel →
        sel = splitToken token ∧ sel.length = 4 :=
  ⟨by decide, fun declared token =>
    ⟨fun h => subcatStep_count_error declared token h,
     fun _ h => subcatStep_ok h⟩⟩

/-- C6 witness: a two-selection token is rejected, the four-selection
scenario token is accepted verbatim, for the Coding category's declared
subcategories. -/
theorem c6_witness :
    subcatStep 4 codingSubcategories "Hackathons,Competitive Programming" =
      .error .InvalidSelectionCount ∧
    splitToken codingToken4 = splitToken codingToken4 ∧
    (splitToken codingToken4).length = 4 :=
  ⟨(c6_exact_selection_count.2 codingSubcategories "Hackathons,Competitive Programming").1
      (by decide),
   (c6_exact_selection_count.2 codingSubcategories codingToken4).2
      (splitToken codingToken4) (by decide)⟩

/-- C8: two fetchMenuData runs differing only in the goingBack flag post
identical request bodies and therefore obtain identical responses from the
path-only server; the flag only picks the animation direction. -/
theorem c8_direction_independent (category : String) (selection : Option String)
    (p : List String) (b1 b2 : Bool) (store : Store) :
    (fetchMenuData category selection b1 p).request =
      (fetchMenuData category selection b2 p).request ∧
    serveMenu store (fetchMenuData category selection b1 p).request =
      serveMenu store (fetchMenuData category selection b2 p).request ∧
    (fetchMenuData category selection b1 p).direction = (if b1 then -1 else 1) :=
  ⟨rfl, rfl, rfl⟩

/-- A custom-input submission is a selection of the trimmed input. -/
theorem step_customSubmit_eq_select (st : ClientState) (raw : String) :
    step st (.customSubmit raw) = step st (.select (jsTrim raw)) := rfl

/-- The empty initial state satisfies the history invariant. -/
theorem histInvariant_init (category : String) : histInvariant (initClient category) :=
  ⟨rfl, fun i h => absurd h (by simp [initClient])⟩

/-- Selecting an option pushes one history entry holding the pre-selection
path, preserving the invariant. -/
theorem histInvariant_select (st : ClientState) (tok : String)
    (hinv : histInvariant st) : histInvariant (step st (.select tok)) := by
  obtain ⟨hlen, hget⟩ := hinv
  refine ⟨by simp [step, pushHistory, hlen], ?_⟩
  intro i h
  simp only [step, pushHistory, List.get_eq_getElem] at h ⊢
  rw [List.length_append] at h
  simp only [List.length_cons, List.length_nil] at h
  rcases Nat.lt_or_ge i st.history.length with hi | hi
  · rw [List.getElem_append_left hi]
    have hv := hget i hi
    simp only [List.get_eq_getElem] at hv
    rw [hv, List.take_append_of_le_length (by omega : i ≤ st.path.length)]
  · have hi2 : i = st.history.length := by omega
    subst hi2
    rw [List.getElem_concat_length _ _ _ rfl]
    rw [hlen, List.take_left]

/-- In an invariant state with a non-empty path, the back handler pops the
top history entry, which holds exactly the current path without its last
token. -/
theorem step_back_eq (st : ClientState) (hinv : histInvariant st)
    (hne : st.path ≠ []) :
    step st .back = { st with path := st.path.dropLast, history := st.history.dropLast } := by
  obtain ⟨hlen, hget⟩ := hinv
  have hE : st.path.isEmpty = false := List.isEmpty_eq_false.mpr hne
  have hh : st.history ≠ [] := by
    intro h0
    rw [h0] at hlen
    exact hne (List.length_eq_zero.mp hlen.symm)
  have hpos : 0 < st.history.length := List.length_pos.mpr hh
  have hlast : (st.history.getLast hh).2 = st.path.dropLast := by
    have hv := hget (st.history.length - 1) (Nat.sub_lt hpos Nat.one_pos)
    simp only [List.get_eq_getElem] at hv
    rw [List.getLast_eq_getElem]
    exact hv.trans (by rw [hlen, ← List.dropLast_eq_take])
  simp only [step, hE, Bool.false_eq_true, if_false, List.getLast?_eq_getLast _ hh]
  rw [hlast]

/-- The back handler preserves the history invariant. -/
theorem histInvariant_back (st : ClientState) (hinv : histInvariant st) :
    histInvariant (step st .back) := by
  by_cases hne : st.path = []
  · have hE : st.path.isEmpty = true := by simp [hne]
    simpa only [step, hE, if_true] using hinv
  · rw [step_back_eq st hinv hne]
    obtain ⟨hlen, hget⟩ := hinv
    refine ⟨by simp [List.length_dropLast, hlen], ?_⟩
    intro i h
    simp only [List.get_eq_getElem] at h ⊢
    have hi : i < st.history.dropLast.length := h
    have hi2 : i < st.history.length := by
      rw [List.length_dropLast] at hi
      omega
    rw [List.getElem_dropLast]
    have hv := hget i hi2
    simp only [List.get_eq_getElem] at hv
    rw [hv, List.dropLast_eq_take, List.take_take]
    have hmin : i ⊓ (st.path.length - 1) = i := by
      apply Nat.min_eq_left
      rw [List.length_dropLast, hlen] at hi
      omega
    rw [hmin]

/-- C9 (amended): in every state reachable through option selections,
custom-input submissions and back actions alone, the history stack holds
exactly one entry per path token, its i-th entry storing the length-i
prefix of the current path, and a back action restores the current path
truncated by one token. Breadcrumb and reset-crumb clicks are excluded:
they truncate the path without popping history. -/
theorem c9_history_prefix_invariant (st : ClientState) (h : ReachableSCB st) :
    histInvariant st ∧
    (st.path ≠ [] → (step st .back).path = st.path.dropLast) := by
  have hinv : histInvariant st := by
    induction h with
    | init category => exact histInvariant_init category
    | select st tok hr ih => exact histInvariant_select st tok ih
    | custom st raw hr ih =>
      rw [step_customSubmit_eq_select]
      exact histInvariant_select st (jsTrim raw) ih
    | back st hr ih => exact histInvariant_back st ih
  refine ⟨hinv, fun hne => ?_⟩
  rw [step_back_eq st hinv hne]

/-- C9 witness: two selections and a back action. -/
theorem c9_witness :
    histInvariant twoSelectState ∧
    (twoSelectState.path ≠ [] → (step twoSelectState .back).path =
      twoSelectState.path.dropLast) :=
  c9_history_prefix_invariant twoSelectState
    (ReachableSCB.select _ _ (ReachableSCB.select _ _ (ReachableSCB.init "housing")))

/-- C9 counterexample: after two selections and a breadcrumb click on the
first crumb — a reachable interaction sequence — the history stack holds
two entries against a one-token path, and the back action restores the same
one-token path instead of truncating it. -/
theorem c9_counterexample :
    ¬ histInvariant crumbClickState ∧
    (step crumbClickState .back).path ≠ crumbClickState.path.dropLast := by
  constructor
  · intro hinv
    have hlen := hinv.1
    revert hlen
    decide
  · decide

/-- C10: a custom-input submission unconditionally appends the trimmed
input as the next path token and sends it as the selection — including a
fully-whitespace input, which puts an empty-string token on the request
path. -/
theorem c10_custom_submit_appends_trimmed :
    (∀ (category raw : String) (p : List String),
      (customSubmitRequest category p raw).path = p ++ [jsTrim raw] ∧
      (customSubmitRequest category p raw).selection = some (jsTrim raw)) ∧
    (customSubmitRequest "housing" [] "   ").path = [""] :=
  ⟨fun _ _ _ => ⟨rfl, rfl⟩, by decide⟩

end GatorNet
